import Mathlib

/-!
Shallow embedding of the bacteria evolution simulation core
(`src/lib/Bacterium.js`, `src/lib/Environment.js`, `src/lib/Simulation.js`).

Numbers are modelled as rationals (`ℚ`); the JavaScript arithmetic on the
paths relevant to the claims is exact on the values involved.  Every call
to `Math.random()` in the source is modelled as an explicit rational
parameter, assumed (where it matters) to lie in `[0, 1)`, the range of
`Math.random()`.  A JavaScript property access that can yield `undefined`
or throw is modelled with `Option`; `none` stands for the abnormal
outcome (an exception or an `undefined` result).
-/

namespace BactSim

/-- JavaScript `a || d` for an optional numeric property `a`:
`undefined` (here `none`) and the falsy number `0` both fall back to the
default `d`. -/
def orDefault (v : Option ℚ) (d : ℚ) : ℚ :=
  match v with
  | none => d
  | some q => if q = 0 then d else q

/-- State of one bacterium, mirroring the fields of the `Bacterium`
class (the opaque random `id` and the derived display `color` are
omitted: no claim mentions them). -/
structure Bacterium where
  x : ℚ
  y : ℚ
  size : ℚ
  speed : ℚ
  metabolism : ℚ
  resistance : ℚ
  lifespan : ℚ
  mutationRate : ℚ
  age : ℕ
  energy : ℚ
  alive : Bool
  reproductionCooldown : ℕ
  vx : ℚ
  vy : ℚ
  deriving Repr, DecidableEq

/-- The `options` object accepted by the `Bacterium` constructor
(each trait either absent, i.e. `undefined`, or a number). -/
structure BacteriumOptions where
  x : Option ℚ := none
  y : Option ℚ := none
  size : Option ℚ := none
  speed : Option ℚ := none
  metabolism : Option ℚ := none
  resistance : Option ℚ := none
  lifespan : Option ℚ := none
  mutationRate : Option ℚ := none
  deriving Repr, DecidableEq

/-- The `Bacterium` constructor: every trait is defaulted with `||`
(so `0` falls back to the built-in default), internal state is reset to
`age = 0`, `energy = 100`, `alive = true`, `cooldown = 0`, and the
initial velocity is `(Math.random()*2-1)*speed` per axis, with the two
random draws passed in as `rvx`, `rvy`. -/
def Bacterium.create (opts : BacteriumOptions) (rvx rvy : ℚ) : Bacterium :=
  let speed := orDefault opts.speed 1
  { x := orDefault opts.x 0
    y := orDefault opts.y 0
    size := orDefault opts.size 5
    speed := speed
    metabolism := orDefault opts.metabolism 1
    resistance := orDefault opts.resistance 1
    lifespan := orDefault opts.lifespan 100
    mutationRate := orDefault opts.mutationRate (1/10)
    age := 0
    energy := 100
    alive := true
    reproductionCooldown := 0
    vx := (rvx * 2 - 1) * speed
    vy := (rvy * 2 - 1) * speed }

/-- `calculateTemperatureFactor`: deviation from the optimum 50,
attenuated by resistance. -/
def Bacterium.calculateTemperatureFactor (b : Bacterium) (temperature : ℚ) : ℚ :=
  let deviation := |temperature - 50| / 50
  let resistanceFactor := 1 - b.resistance * (1/2)
  1 + deviation * resistanceFactor

/-- `calculatePHFactor`: deviation from the optimum 7, attenuated by
resistance. -/
def Bacterium.calculatePHFactor (b : Bacterium) (pH : ℚ) : ℚ :=
  let deviation := |pH - 7| / 7
  let resistanceFactor := 1 - b.resistance * (1/2)
  1 + deviation * resistanceFactor

/-- `calculateToxicityFactor`: toxicity attenuated by resistance. -/
def Bacterium.calculateToxicityFactor (b : Bacterium) (toxicity : ℚ) : ℚ :=
  let resistanceFactor := 1 - b.resistance * (4/5)
  1 + toxicity * resistanceFactor

/-- `absorbNutrients`: energy gained from the locally available
nutrients. -/
def Bacterium.absorbNutrients (b : Bacterium) (nutrients : ℚ) : ℚ :=
  let absorptionRate := b.size * (1/2)
  let processingEfficiency := 1/2 + b.metabolism * (1/2)
  nutrients * absorptionRate * processingEfficiency

/-- The local-environment object a bacterium sees during `update`:
the environment's global scalars with `nutrients` and `toxicity`
replaced by the values sampled at the bacterium's position. -/
structure LocalEnv where
  temperature : ℚ
  pH : ℚ
  nutrients : ℚ
  toxicity : ℚ
  width : ℚ
  height : ℚ
  deriving Repr, DecidableEq

/-- `move`: with the first random draw below 0.1 the velocity is
redrawn as `(Math.random()*2-1)*speed` per axis; the position advances
by the velocity and is clamped to the extent, negating the velocity
component on contact. -/
def Bacterium.move (b : Bacterium) (width height : ℚ) (rDir r1 r2 : ℚ) : Bacterium :=
  let vx := if rDir < 1/10 then (r1 * 2 - 1) * b.speed else b.vx
  let vy := if rDir < 1/10 then (r2 * 2 - 1) * b.speed else b.vy
  let x := b.x + vx
  let y := b.y + vy
  let px := if x < 0 then ((0 : ℚ), vx * (-1)) else if x > width then (width, vx * (-1)) else (x, vx)
  let py := if y < 0 then ((0 : ℚ), vy * (-1)) else if y > height then (height, vy * (-1)) else (y, vy)
  { b with x := px.1, vx := px.2, y := py.1, vy := py.2 }

/-- `update`: ages the bacterium, decrements the cooldown, subtracts
the consumption `size·metabolism·Tfactor·PHfactor·Toxfactor`, adds the
absorbed nutrients, kills the bacterium when `energy ≤ 0` or
`age ≥ lifespan`, and otherwise moves it.  Returns the updated

bacterium together with the boolean the method returns.  The three
random draws used by `move` are passed in as `rDir r1 r2`. -/
def Bacterium.update (b : Bacterium) (env : LocalEnv) (rDir r1 r2 : ℚ) : Bacterium × Bool :=
  if b.alive = false then (b, false)
  else
    let b := { b with age := b.age + 1 }
    let b := if b.reproductionCooldown > 0 then
        { b with reproductionCooldown := b.reproductionCooldown - 1 }
      else b
    let baseConsumption := b.size * b.metabolism
    let tempFactor := b.calculateTemperatureFactor env.temperature
    let pHFactor := b.calculatePHFactor env.pH
    let toxicityFactor := b.calculateToxicityFactor env.toxicity
    let energyConsumption := baseConsumption * tempFactor * pHFactor * toxicityFactor
    let b := { b with energy := b.energy - energyConsumption }
    let b := { b with energy := b.energy + b.absorbNutrients env.nutrients }
    if b.energy ≤ 0 ∨ b.lifespan ≤ (b.age : ℚ) then
      ({ b with alive := false }, false)
    else
      (b.move env.width env.height rDir r1 r2, true)

/-- `mutateProperty`: with the first random draw below the bacterium's
own `mutationRate` the value is scaled by `1 + (Math.random()*2-1)*0.2`
(second draw `rm`), otherwise returned unchanged. -/
def Bacterium.mutateProperty (b : Bacterium) (r rm value : ℚ) : ℚ :=
  if r < b.mutationRate then
    let change := 1 + (rm * 2 - 1) * (1/5)
    value * change
  else value

/-- The random draws consumed by one call to `reproduce`: position
jitter (`rx`, `ry`), two draws per mutated trait, and the two velocity
draws of the child's constructor. -/
structure ReproRand where
  rx : ℚ := 0
  ry : ℚ := 0
  rSize : ℚ := 0
  mSize : ℚ := 0
  rSpeed : ℚ := 0
  mSpeed : ℚ := 0
  rMet : ℚ := 0
  mMet : ℚ := 0
  rRes : ℚ := 0
  mRes : ℚ := 0
  rLife : ℚ := 0
  mLife : ℚ := 0
  rMut : ℚ := 0
  mMut : ℚ := 0
  rvx : ℚ := 0
  rvy : ℚ := 0
  deriving Repr, DecidableEq

/-- `reproduce`: fails (returning the unchanged parent and no child)
when the parent is dead, cooling down, or has energy below 50; on
success multiplies the parent's energy by 0.7, sets its cooldown to 20,
and builds one child through the constructor from the jittered position
`x + (Math.random()*10 - 5)` and every trait passed through
`mutateProperty`. -/
def Bacterium.reproduce (b : Bacterium) (rnd : ReproRand) : Bacterium × Option Bacterium :=
  if b.alive = false ∨ b.reproductionCooldown > 0 ∨ b.energy < 50 then
    (b, none)
  else
    let parent := { b with energy := b.energy * (7/10), reproductionCooldown := 20 }
    let childProperties : BacteriumOptions :=
      { x := some (b.x + (rnd.rx * 10 - 5))
        y := some (b.y + (rnd.ry * 10 - 5))
        size := some (b.mutateProperty rnd.rSize rnd.mSize b.size)
        speed := some (b.mutateProperty rnd.rSpeed rnd.mSpeed b.speed)
        metabolism := some (b.mutateProperty rnd.rMet rnd.mMet b.metabolism)
        resistance := some (b.mutateProperty rnd.rRes rnd.mRes b.resistance)
        lifespan := some (b.mutateProperty rnd.rLife rnd.mLife b.lifespan)
        mutationRate := some (b.mutateProperty rnd.rMut rnd.mMut b.mutationRate) }
    (parent, some (Bacterium.create childProperties rnd.rvx rnd.rvy))

/-! ## Spatial fields (`Environment.js`) -/

/-- A generated field: the 2D grid (column-major, `grid[x][y]` as in the
source) together with the cell dimensions and the grid size captured at
generation time. -/
structure FieldDistribution where
  grid : List (List ℚ)
  cellWidth : ℚ
  cellHeight : ℚ
  gridSize : ℕ
  deriving Repr, DecidableEq

/-- The three random draws a single cell of a field generation
consumes: the value draw and the two area-classification rolls. -/
structure CellRand where
  rv : ℚ := 0
  rA : ℚ := 0
  rB : ℚ := 0
  deriving Repr, DecidableEq

/-- `generateNutrientDistribution`: a 20×20 grid with per-cell value
`nutrients·(0.5+Math.random())`, doubled with probability 0.1 (rich
area), else halved with probability 0.1 (poor area).  The per-cell
randomness is supplied by `rng`. -/
def generateNutrientDistribution (nutrients width height : ℚ)
    (rng : ℕ → ℕ → CellRand) : FieldDistribution :=
  let gridSize : ℕ := 20
  let cellWidth := width / (gridSize : ℚ)
  let cellHeight := height / (gridSize : ℚ)
  let grid := (List.range gridSize).map fun gx =>
    (List.range gridSize).map fun gy =>
      let r := rng gx gy
      let v := nutrients * (1/2 + r.rv)
      if r.rA < 1/10 then v * 2
      else if r.rB < 1/10 then v * (1/2)
      else v
  { grid := grid, cellWidth := cellWidth, cellHeight := cellHeight, gridSize := gridSize }

/-- `generateToxicityDistribution`: a 20×20 grid with per-cell value
`toxicity·(0.5+Math.random())`, tripled with probability 0.05 (toxic
hotspot). -/
def generateToxicityDistribution (toxicity width height : ℚ)
    (rng : ℕ → ℕ → CellRand) : FieldDistribution :=
  let gridSize : ℕ := 20
  let cellWidth := width / (gridSize : ℚ)
  let cellHeight := height / (gridSize : ℚ)
  let grid := (List.range gridSize).map fun gx =>
    (List.range gridSize).map fun gy =>
      let r := rng gx gy
      let v := toxicity * (1/2 + r.rv)
      if r.rA < 1/20 then v * 3
      else v
  { grid := grid, cellWidth := cellWidth, cellHeight := cellHeight, gridSize := gridSize }

/-- JavaScript array indexing with a possibly negative integer index:
`l[i]` is `undefined` (`none`) for `i < 0` or `i ≥ length`. -/
def listGetInt {α : Type} (l : List α) (i : ℤ) : Option α :=
  if 0 ≤ i then l.get? i.toNat else none

/-- The shared body of `getNutrientAt`/`getToxicityAt`:
`gridX = Math.min(Math.floor(x / cellWidth), gridSize - 1)` (note there
is no lower clamp in the source), then `grid[gridX][gridY]`.  A `none`
result models the abnormal outcome of the JavaScript original (a thrown
`TypeError` when `grid[gridX]` is `undefined`, or an `undefined` sample
when only the inner access misses). -/
def FieldDistribution.sampleAt (d : FieldDistribution) (x y : ℚ) : Option ℚ :=
  let gridX : ℤ := min ⌊x / d.cellWidth⌋ ((d.gridSize : ℤ) - 1)
  let gridY : ℤ := min ⌊y / d.cellHeight⌋ ((d.gridSize : ℤ) - 1)
  (listGetInt d.grid gridX).bind fun row => listGetInt row gridY

/-! ## Environment state, statistics and update (`Environment.js`) -/

/-- One logged extinction event. -/
structure ExtinctionEvent where
  generation : ℕ
  previousPopulation : ℕ
  currentPopulation : ℕ
  deriving Repr, DecidableEq

/-- The `statistics` record of the environment: the population history,
one average history per trait, and the extinction-event log. -/
structure Statistics where
  populationHistory : List ℕ := []
  sizeHist : List ℚ := []
  speedHist : List ℚ := []
  metabolismHist : List ℚ := []
  resistanceHist : List ℚ := []
  lifespanHist : List ℚ := []
  mutationRateHist : List ℚ := []
  extinctionEvents : List ExtinctionEvent := []
  deriving Repr, DecidableEq

/-- `push` followed by the length guard of `updateStatistics`: appends
`v` and, when the result exceeds 1000 entries, `shift`s the oldest
entry off the front. -/
def capPush {α : Type} (h : List α) (v : α) : List α :=
  if (h ++ [v]).length > 1000 then (h ++ [v]).tail else h ++ [v]

/-- Arithmetic mean of a trait over the population, as accumulated and
divided in `updateStatistics`. -/
def avgBy (f : Bacterium → ℚ) (bacteria : List Bacterium) : ℚ :=
  (bacteria.map f).sum / (bacteria.length : ℚ)

/-- `updateStatistics`: always appends the population count (capped at
1000, FIFO); when the population is non-empty additionally appends each
trait's mean to its capped history. -/
def updateStatistics (st : Statistics) (bacteria : List Bacterium) : Statistics :=
  let st := { st with populationHistory := capPush st.populationHistory bacteria.length }
  if bacteria.length > 0 then
    { st with
      sizeHist := capPush st.sizeHist (avgBy Bacterium.size bacteria)
      speedHist := capPush st.speedHist (avgBy Bacterium.speed bacteria)
      metabolismHist := capPush st.metabolismHist (avgBy Bacterium.metabolism bacteria)
      resistanceHist := capPush st.resistanceHist (avgBy Bacterium.resistance bacteria)
      lifespanHist := capPush st.lifespanHist (avgBy Bacterium.lifespan bacteria)
      mutationRateHist := capPush st.mutationRateHist (avgBy Bacterium.mutationRate bacteria) }
  else st

/-- The `Environment` state: global scalar parameters, the two field
distributions, the generation counter and the statistics record. -/
structure Environment where
  width : ℚ
  height : ℚ
  temperature : ℚ
  pH : ℚ
  nutrients : ℚ
  toxicity : ℚ
  antibiotics : ℚ
  carryingCapacity : ℚ
  nutrientDistribution : FieldDistribution
  toxicityDistribution : FieldDistribution
  generation : ℕ
  statistics : Statistics

/-- The `options` object of the `Environment` constructor. -/
structure EnvOptions where
  width : Option ℚ := none
  height : Option ℚ := none
  temperature : Option ℚ := none
  pH : Option ℚ := none
  nutrients : Option ℚ := none
  toxicity : Option ℚ := none
  antibiotics : Option ℚ := none
  carryingCapacity : Option ℚ := none
  deriving Repr, DecidableEq

/-- The `Environment` constructor: `width`, `height` and
`carryingCapacity` are defaulted with `||` (falsy `0` falls back), the
other scalars with an explicit `!== undefined` test (so `0` is kept);
both fields are generated and the statistics start empty. -/
def Environment.create (opts : EnvOptions) (rngN rngT : ℕ → ℕ → CellRand) : Environment :=
  let width := orDefault opts.width 800
  let height := orDefault opts.height 600
  let nutrients := opts.nutrients.getD 5
  let toxicity := opts.toxicity.getD 0
  { width := width
    height := height
    temperature := opts.temperature.getD 50
    pH := opts.pH.getD 7
    nutrients := nutrients
    toxicity := toxicity
    antibiotics := opts.antibiotics.getD 0
    carryingCapacity := orDefault opts.carryingCapacity 200
    nutrientDistribution := generateNutrientDistribution nutrients width height rngN
    toxicityDistribution := generateToxicityDistribution toxicity width height rngT
    generation := 0
    statistics := {} }

/-- `getNutrientAt`, delegating to the nutrient distribution. -/
def Environment.getNutrientAt (e : Environment) (x y : ℚ) : Option ℚ :=
  e.nutrientDistribution.sampleAt x y

/-- `getToxicityAt`, delegating to the toxicity distribution. -/
def Environment.getToxicityAt (e : Environment) (x y : ℚ) : Option ℚ :=
  e.toxicityDistribution.sampleAt x y

/-- `Environment.update`: increments the generation, runs
`updateStatistics`, regenerates the fields on their cadence (every 100
resp. 150 generations), and then checks for an extinction event against
the last entry of the population history — which `updateStatistics` has
already extended with the current count. -/
def Environment.update (e : Environment) (bacteria : List Bacterium)
    (rngN rngT : ℕ → ℕ → CellRand) : Environment :=
  let generation := e.generation + 1
  let stats := updateStatistics e.statistics bacteria
  let nd := if generation % 100 = 0 then
      generateNutrientDistribution e.nutrients e.width e.height rngN
    else e.nutrientDistribution
  let td := if generation % 150 = 0 then
      generateToxicityDistribution e.toxicity e.width e.height rngT
    else e.toxicityDistribution
  let currentPopulation := bacteria.length
  let previousPopulation : ℕ :=
    match stats.populationHistory.getLast? with
    | some p => p
    | none => currentPopulation
  let stats :=
    if previousPopulation > 10 ∧ (currentPopulation : ℚ) ≤ (previousPopulation : ℚ) * (1/2) then
      { stats with extinctionEvents := stats.extinctionEvents ++
          [{ generation := generation,
             previousPopulation := previousPopulation,
             currentPopulation := currentPopulation }] }
    else stats
  { e with
    generation := generation
    statistics := stats
    nutrientDistribution := nd
    toxicityDistribution := td }

/-- A partial parameter update as passed to `setParameters` (absent
keys are `none`). -/
structure EnvParams where
  temperature : Option ℚ := none
  pH : Option ℚ := none
  nutrients : Option ℚ := none
  toxicity : Option ℚ := none
  antibiotics : Option ℚ := none
  carryingCapacity : Option ℚ := none
  width : Option ℚ := none
  height : Option ℚ := none
  deriving Repr, DecidableEq

/-- `setParameters`: merges each present key into the state, in source
order; a present `nutrients` key regenerates the nutrient field and a
present `toxicity` key regenerates the toxicity field (both still with
the pre-update extent, since `width`/`height` are assigned last);
no other key touches the fields. -/
def Environment.setParameters (e : Environment) (p : EnvParams)
    (rngN rngT : ℕ → ℕ → CellRand) : Environment :=
  let e := match p.temperature with
    | some t => { e with temperature := t }
    | none => e
  let e := match p.pH with
    | some v => { e with pH := v }
    | none => e
  let e := match p.nutrients with
    | some n =>
      { e with nutrients := n,
               nutrientDistribution := generateNutrientDistribution n e.width e.height rngN }
    | none => e
  let e := match p.toxicity with
    | some t =>
      { e with toxicity := t,
               toxicityDistribution := generateToxicityDistribution t e.width e.height rngT }
    | none => e
  let e := match p.antibiotics with
    | some a => { e with antibiotics := a }
    | none => e
  let e := match p.carryingCapacity with
    | some c => { e with carryingCapacity := c }
    | none => e
  let e := match p.width with
    | some w => { e with width := w }
    | none => e
  let e := match p.height with
    | some h => { e with height := h }
    | none => e
  e

/-! ## Simulation controller (`Simulation.js`) -/

/-- The `initialBacteriaParams` seed object (absent keys are `none`). -/
structure SeedParams where
  size : Option ℚ := none
  speed : Option ℚ := none
  metabolism : Option ℚ := none
  resistance : Option ℚ := none
  lifespan : Option ℚ := none
  mutationRate : Option ℚ := none
  deriving Repr, DecidableEq

/-- The random draws consumed when one initial bacterium is created:
the position draws, one baseline draw per trait, and the constructor's
two velocity draws. -/
structure InitRand where
  rx : ℚ := 0
  ry : ℚ := 0
  rSize : ℚ := 0
  rSpeed : ℚ := 0
  rMet : ℚ := 0
  rRes : ℚ := 0
  rLife : ℚ := 0
  rMut : ℚ := 0
  rvx : ℚ := 0
  rvy : ℚ := 0
  deriving Repr, DecidableEq

/-- One iteration of `initializePopulation`: each trait option is the
explicit seed value `||` a randomized baseline (so a falsy seed such as
`0` falls back to the baseline), and the result goes through the
`Bacterium` constructor. -/
def makeInitialBacterium (e : Environment) (p : SeedParams) (r : InitRand) : Bacterium :=
  Bacterium.create
    { x := some (r.rx * e.width)
      y := some (r.ry * e.height)
      size := some (orDefault p.size (5 + (r.rSize * 3 - 3/2)))
      speed := some (orDefault p.speed (1 + (r.rSpeed * (3/5) - 3/10)))
      metabolism := some (orDefault p.metabolism (1 + (r.rMet * (2/5) - 1/5)))
      resistance := some (orDefault p.resistance (1 + (r.rRes * (2/5) - 1/5)))
      lifespan := some (orDefault p.lifespan (100 + (r.rLife * 40 - 20)))
      mutationRate := some (orDefault p.mutationRate (1/10 + (r.rMut * (1/25) - 1/50))) }
    r.rvx r.rvy

/-- The `Simulation` state (the `speed` multiplier is irrelevant to the
claims but kept for completeness). -/
structure Simulation where
  environment : Environment
  bacteria : List Bacterium
  initialBacteriaParams : SeedParams
  initialPopulation : ℕ
  running : Bool
  speed : ℚ

/-- `initializePopulation`: replaces the collection with
`initialPopulation` fresh bacteria, using one `InitRand` bundle per
bacterium (taken from `rnds`, zero draws past its end). -/
def Simulation.initializePopulation (s : Simulation) (rnds : List InitRand) : Simulation :=
  { s with bacteria := (List.range s.initialPopulation).map fun i =>
      makeInitialBacterium s.environment s.initialBacteriaParams (rnds.getD i {}) }

/-- `reset`: reads `getStatistics().currentParameters` — which holds
only the six scalar parameters, not the extent — and builds a new
`Environment` from it (the spread `width: currentEnvParams.width`
copies `undefined`, so the constructor falls back to its defaults),
then reinitializes the population. -/
def Simulation.reset (s : Simulation) (rngN rngT : ℕ → ℕ → CellRand)
    (rnds : List InitRand) : Simulation :=
  let e := s.environment
  let env := Environment.create
    { width := none
      height := none
      temperature := some e.temperature
      pH := some e.pH
      nutrients := some e.nutrients
      toxicity := some e.toxicity
      antibiotics := some e.antibiotics
      carryingCapacity := some e.carryingCapacity } rngN rngT
  Simulation.initializePopulation { s with environment := env } rnds

/-- The random draws consumed by one agent's turn in the update loop:
the three movement draws of `Bacterium.update` and the reproduction
bundle. -/
structure AgentRand where
  rDir : ℚ := 0
  r1 : ℚ := 0
  r2 : ℚ := 0
  repro : ReproRand := {}
  deriving Repr, DecidableEq

/-- The per-agent loop of `Simulation.update`: samples the local fields
at the agent's position (propagating the abnormal `none` outcome of a
failed sample), updates the agent, retains it if alive, and — when the
pre-pass population count `oldLen` is below `carryingCapacity` —
attempts reproduction, retaining the (post-reproduction) parent and any
child.  `acc` is the `newBacteria` accumulator. -/
def stepAgents (env : Environment) (oldLen : ℕ) :
    List Bacterium → List AgentRand → List Bacterium → Option (List Bacterium)
  | [], _, acc => some acc
  | b :: rest, rnds, acc =>
    let rnd := rnds.headD {}
    match env.getNutrientAt b.x b.y, env.getToxicityAt b.x b.y with
    | some nut, some tox =>
      let localEnvironment : LocalEnv :=
        { temperature := env.temperature, pH := env.pH, nutrients := nut, toxicity := tox,
          width := env.width, height := env.height }
      let upd := b.update localEnvironment rnd.rDir rnd.r1 rnd.r2
      if upd.2 then
        if (oldLen : ℚ) < env.carryingCapacity then
          let rep := upd.1.reproduce rnd.repro
          match rep.2 with
          | some child => stepAgents env oldLen rest rnds.tail (acc ++ [rep.1, child])
          | none => stepAgents env oldLen rest rnds.tail (acc ++ [rep.1])
        else
          stepAgents env oldLen rest rnds.tail (acc ++ [upd.1])
      else
        stepAgents env oldLen rest rnds.tail acc
    | _, _ => none

/-- The same loop with the reproduction gate abstracted into a fixed
boolean: `stepAgents` instantiates it with
`decide ((oldLen : ℚ) < carryingCapacity)`, showing the gate is
constant across the pass. -/
def stepAgentsGated (env : Environment) (gate : Bool) :
    List Bacterium → List AgentRand → List Bacterium → Option (List Bacterium)
  | [], _, acc => some acc
  | b :: rest, rnds, acc =>
    let rnd := rnds.headD {}
    match env.getNutrientAt b.x b.y, env.getToxicityAt b.x b.y with
    | some nut, some tox =>
      let localEnvironment : LocalEnv :=
        { temperature := env.temperature, pH := env.pH, nutrients := nut, toxicity := tox,
          width := env.width, height := env.height }
      let upd := b.update localEnvironment rnd.rDir rnd.r1 rnd.r2
      if upd.2 then
        if gate then
          let rep := upd.1.reproduce rnd.repro
          match rep.2 with
          | some child => stepAgentsGated env gate rest rnds.tail (acc ++ [rep.1, child])
          | none => stepAgentsGated env gate rest rnds.tail (acc ++ [rep.1])
        else
          stepAgentsGated env gate rest rnds.tail (acc ++ [upd.1])
      else
        stepAgentsGated env gate rest rnds.tail acc
    | _, _ => none

/-- Modelled from the spec: the per-agent loop as the claim describes
it, with the carrying-capacity gate evaluated cumulatively — an agent
may attempt reproduction only while the count of retained survivors
plus offspring spawned so far in this pass (including the agent just
retained) is still below `carryingCapacity`. -/
def stepAgentsCumulative (env : Environment) :
    List Bacterium → List AgentRand → List Bacterium → Option (List Bacterium)
  | [], _, acc => some acc
  | b :: rest, rnds, acc =>
    let rnd := rnds.headD {}
    match env.getNutrientAt b.x b.y, env.getToxicityAt b.x b.y with
    | some nut, some tox =>
      let localEnvironment : LocalEnv :=
        { temperature := env.temperature, pH := env.pH, nutrients := nut, toxicity := tox,
          width := env.width, height := env.height }
      let upd := b.update localEnvironment rnd.rDir rnd.r1 rnd.r2
      if upd.2 then
        if ((acc.length + 1 : ℕ) : ℚ) < env.carryingCapacity then
          let rep := upd.1.reproduce rnd.repro
          match rep.2 with
          | some child => stepAgentsCumulative env rest rnds.tail (acc ++ [rep.1, child])
          | none => stepAgentsCumulative env rest rnds.tail (acc ++ [rep.1])
        else
          stepAgentsCumulative env rest rnds.tail (acc ++ [upd.1])
      else
        stepAgentsCumulative env rest rnds.tail acc
    | _, _ => none

/-- `Simulation.update`: a no-op when not running; otherwise advances
the environment on the pre-step population, then runs the per-agent
loop (whose reproduction gate compares the pre-step collection length
to `carryingCapacity`) and installs the resulting collection.  `none`
models a thrown exception inside the loop. -/
def Simulation.update (s : Simulation) (rnds : List AgentRand)
    (rngN rngT : ℕ → ℕ → CellRand) : Option Simulation :=
  if s.running = false then some s
  else
    let env := s.environment.update s.bacteria rngN rngT
    match stepAgents env s.bacteria.length s.bacteria rnds [] with
    | some newBacteria => some { s with environment := env, bacteria := newBacteria }
    | none => none

/-! ## Test fixtures

Concrete states used to evaluate the definitions on explicit inputs.
`zrng` is the all-zeros random source (every `Math.random()` draw is
`0`, a value `Math.random()` can return). -/

/-- The all-zeros cell random source. -/
def zrng : ℕ → ℕ → CellRand := fun _ _ => {}

/-- An environment built by the constructor with no options: the
defaults 800×600, temperature 50, pH 7, nutrients 5, toxicity 0,
carrying capacity 200. -/
def testEnv : Environment := Environment.create {} zrng zrng

/-- A bacterium built by the constructor with no options: the defaults
size 5, speed 1, metabolism 1, resistance 1, lifespan 100, mutation
rate 0.1, energy 100, alive. -/
def testB : Bacterium := Bacterium.create {} 0 0

/-- `testB` with its mutation rate forced to zero. -/
def testB0 : Bacterium := { testB with mutationRate := 0 }

/-- The local environment `testB` samples at the origin of `testEnv`
under `zrng`: every cell of the nutrient grid is rich, giving 5, and
the toxicity grid is identically 0. -/
def testLocalEnv : LocalEnv :=
  { temperature := 50, pH := 7, nutrients := 5, toxicity := 0, width := 800, height := 600 }

/-- A field whose 20×20 grid holds the constant `v`, with literal cell
dimensions matching an 800×600 extent. -/
def flatField (v : ℚ) : FieldDistribution :=
  { grid := List.replicate 20 (List.replicate 20 v)
    cellWidth := 40
    cellHeight := 30
    gridSize := 20 }

/-- A concrete environment state with the default scalar parameters, a
constant nutrient field of 5 and a constant toxicity field of 0 (the
values the all-rich zero-randomness generation produces). -/
def flatEnv : Environment :=
  { width := 800, height := 600, temperature := 50, pH := 7, nutrients := 5,
    toxicity := 0, antibiotics := 0, carryingCapacity := 200,
    nutrientDistribution := flatField 5, toxicityDistribution := flatField 0,
    generation := 0, statistics := {} }

/-- `flatEnv` with carrying capacity 3, used to exercise the
reproduction gate with two agents. -/
def envCap3 : Environment := { flatEnv with carryingCapacity := 3 }

/-- A simulation whose environment has the non-default extent
1000×700. -/
def testSimWide : Simulation :=
  { environment := Environment.create { width := some 1000, height := some 700 } zrng zrng
    bacteria := []
    initialBacteriaParams := {}
    initialPopulation := 2
    running := true
    speed := 1 }

/-! ## Helper lemmas -/

/-- `orDefault` of a present value with default `0` is transparent. -/
theorem orDefault_some_zero_default (q : ℚ) : orDefault (some q) 0 = q := by
  unfold orDefault
  by_cases h : q = 0 <;> simp [h]

/-- `orDefault` keeps a present non-zero value. -/
theorem orDefault_some_of_ne (q d : ℚ) (h : q ≠ 0) : orDefault (some q) d = q := by
  simp [orDefault, h]

/-- A capped push still ends with the pushed value. -/
theorem capPush_getLast? {α : Type} (h : List α) (v : α) :
    (capPush h v).getLast? = some v := by
  unfold capPush
  by_cases hl : (h ++ [v]).length > 1000
  · simp only [hl, if_pos]
    cases h with
    | nil => simp at hl
    | cons a t =>
      simp only [List.cons_append, List.tail_cons]
      exact List.getLast?_concat t
  · simp only [hl, if_neg, ite_false]
    exact List.getLast?_concat h

/-- A capped push never leaves more than 1000 entries, provided the
history was within the cap before. -/
theorem capPush_length_le {α : Type} (h : List α) (v : α) (hle : h.length ≤ 1000) :
    (capPush h v).length ≤ 1000 := by
  unfold capPush
  split
  · simp only [List.length_tail, List.length_append, List.length_singleton]
    omega
  · rename_i hl
    simp only [List.length_append, List.length_singleton] at hl ⊢
    omega

/-- Below the cap, a capped push is a plain append. -/
theorem capPush_eq_append {α : Type} (h : List α) (v : α) (hlt : h.length < 1000) :
    capPush h v = h ++ [v] := by
  unfold capPush
  split
  · rename_i hgt
    exact absurd hgt (by simp only [List.length_append, List.length_singleton]; omega)
  · rfl

/-- At the cap, a capped push drops the oldest entry (the head) and
appends the new value at the end. -/
theorem capPush_eq_tail_append {α : Type} (h : List α) (v : α) (hcap : h.length = 1000) :
    capPush h v = h.tail ++ [v] := by
  unfold capPush
  split
  · cases h with
    | nil => simp at hcap
    | cons a t => simp
  · rename_i hgt
    exact absurd hcap (by simp only [List.length_append, List.length_singleton] at hgt; omega)

/-- The population history written by `Environment.update` is exactly
one capped push of the pre-step population count (the extinction branch
only touches `extinctionEvents`). -/
theorem update_populationHistory (e : Environment) (bacteria : List Bacterium)
    (rngN rngT : ℕ → ℕ → CellRand) :
    (e.update bacteria rngN rngT).statistics.populationHistory =
      capPush e.statistics.populationHistory bacteria.length := by
  unfold Environment.update
  dsimp only
  split <;> · unfold updateStatistics; dsimp only; split <;> rfl

/-- `Environment.update` never appends an extinction event: the check
reads the population history after `updateStatistics` has already
pushed the current count, so the "previous" population always equals
the current one, and `n > 10 ∧ n ≤ n/2` is unsatisfiable. -/
theorem update_extinctionEvents (e : Environment) (bacteria : List Bacterium)
    (rngN rngT : ℕ → ℕ → CellRand) :
    (e.update bacteria rngN rngT).statistics.extinctionEvents =
      e.statistics.extinctionEvents := by
  unfold Environment.update
  dsimp only
  have hlast : (updateStatistics e.statistics bacteria).populationHistory.getLast? =
      some bacteria.length := by
    unfold updateStatistics
    dsimp only
    split <;> exact capPush_getLast? _ _
  rw [hlast]
  have hcond : ¬(bacteria.length > 10 ∧
      (bacteria.length : ℚ) ≤ (bacteria.length : ℚ) * (1/2)) := by
    rintro ⟨h10, hhalf⟩
    have : (10 : ℚ) < (bacteria.length : ℚ) := by exact_mod_cast h10
    nlinarith
  rw [if_neg hcond]
  unfold updateStatistics
  dsimp only
  split <;> rfl

/-- Well-formedness of a generated field: the declared grid size is 20,
the grid is a full 20×20 matrix, and the cell dimensions are positive. -/
def FieldDistribution.WellFormed (d : FieldDistribution) : Prop :=
  d.gridSize = 20 ∧ d.grid.length = 20 ∧ (∀ row ∈ d.grid, row.length = 20) ∧
    0 < d.cellWidth ∧ 0 < d.cellHeight

instance (d : FieldDistribution) : Decidable d.WellFormed := by
  unfold FieldDistribution.WellFormed
  infer_instance

/-- Both generators produce well-formed fields over a positive extent. -/
theorem generate_wellFormed (base width height : ℚ) (rng : ℕ → ℕ → CellRand)
    (hw : 0 < width) (hh : 0 < height) :
    (generateNutrientDistribution base width height rng).WellFormed ∧
      (generateToxicityDistribution base width height rng).WellFormed := by
  constructor <;>
  · refine ⟨rfl, by simp [generateNutrientDistribution, generateToxicityDistribution], ?_, ?_, ?_⟩
    · intro row hrow
      simp only [generateNutrientDistribution, generateToxicityDistribution,
        List.mem_map] at hrow
      obtain ⟨gx, _, rfl⟩ := hrow
      simp
    · exact div_pos hw (by norm_num)
    · exact div_pos hh (by norm_num)

/-- Sampling a well-formed field at non-negative coordinates always
lands inside the grid: the floor of a non-negative quotient is
non-negative, and `Math.min` bounds the index by `gridSize - 1`. -/
theorem sampleAt_isSome_of_nonneg (d : FieldDistribution) (hWF : d.WellFormed)
    (x y : ℚ) (hx : 0 ≤ x) (hy : 0 ≤ y) :
    (d.sampleAt x y).isSome = true := by
  obtain ⟨hg, hlen, hrows, hcw, hch⟩ := hWF
  unfold FieldDistribution.sampleAt
  dsimp only
  set gridX : ℤ := min ⌊x / d.cellWidth⌋ ((d.gridSize : ℤ) - 1) with hgx
  set gridY : ℤ := min ⌊y / d.cellHeight⌋ ((d.gridSize : ℤ) - 1) with hgy
  have hx0 : 0 ≤ gridX :=
    le_min (Int.floor_nonneg.mpr (div_nonneg hx hcw.le)) (by rw [hg]; norm_num)
  have hx19 : gridX ≤ 19 := le_trans (min_le_right _ _) (by rw [hg]; norm_num)
  have hy0 : 0 ≤ gridY :=
    le_min (Int.floor_nonneg.mpr (div_nonneg hy hch.le)) (by rw [hg]; norm_num)
  have hy19 : gridY ≤ 19 := le_trans (min_le_right _ _) (by rw [hg]; norm_num)
  have hxlt : gridX.toNat < d.grid.length := by
    rw [hlen]; omega
  have hrow : d.grid.get? gridX.toNat = some (d.grid.get ⟨gridX.toNat, hxlt⟩) :=
    List.get?_eq_get hxlt
  have hrowmem : d.grid.get ⟨gridX.toNat, hxlt⟩ ∈ d.grid := List.get_mem _ _ _
  have hylt : gridY.toNat < (d.grid.get ⟨gridX.toNat, hxlt⟩).length := by
    rw [hrows _ hrowmem]; omega
  have hv : (d.grid.get ⟨gridX.toNat, hxlt⟩).get? gridY.toNat =
      some ((d.grid.get ⟨gridX.toNat, hxlt⟩).get ⟨gridY.toNat, hylt⟩) :=
    List.get?_eq_get hylt
  rw [List.get?_eq_getElem?] at hrow hv
  simp only [List.get_eq_getElem] at hrow hv
  simp [listGetInt, hx0, hy0, hrow, hv]

/-- **C2 (amended)**: field sampling through `getNutrientAt` and
`getToxicityAt` is total and in-bounds for all non-negative
coordinates, including coordinates beyond the environment extent,
because the cell index is clamped above by `gridSize - 1`; the source
has no lower clamp, so the guarantee stops at 0 (see the
counterexample). -/
theorem getAt_total_of_nonneg (e : Environment)
    (hN : e.nutrientDistribution.WellFormed) (hT : e.toxicityDistribution.WellFormed)
    (x y : ℚ) (hx : 0 ≤ x) (hy : 0 ≤ y) :
    (e.getNutrientAt x y).isSome = true ∧ (e.getToxicityAt x y).isSome = true :=
  ⟨sampleAt_isSome_of_nonneg _ hN x y hx hy, sampleAt_isSome_of_nonneg _ hT x y hx hy⟩

/-- Witness for `getAt_total_of_nonneg` at a concrete environment and
a beyond-extent coordinate. -/
theorem getAt_total_of_nonneg_witness :
    (flatEnv.getNutrientAt 3 900).isSome = true ∧
      (flatEnv.getToxicityAt 3 900).isSome = true :=
  getAt_total_of_nonneg flatEnv (by decide) (by decide) 3 900 (by norm_num) (by norm_num)

/-- **C2 (counterexample)**: at the negative coordinate `x = -1` the
unclamped cell index is `-1` and the access `grid[-1][0]` leaves the
grid (in the JavaScript original, `grid[-1]` is `undefined` and the
subsequent indexing throws), so sampling is not total over all reals as
the claim states. -/
theorem getNutrientAt_neg_coordinate_fails :
    flatEnv.getNutrientAt (-1) 0 = none ∧ flatEnv.getToxicityAt 0 (-1) = none := by
  constructor <;>
    norm_num [Environment.getNutrientAt, Environment.getToxicityAt,
      FieldDistribution.sampleAt, listGetInt, flatEnv, flatField]

/-- **C1**: the population sequence `[50, 20]` logs no extinction
event, contrary to the claim's expected single `{previous := 50,
current := 20}` event: `Environment.update` calls `updateStatistics`
(which pushes the current count) before reading the "previous"
population from the end of the history, so the comparison is always
`current ≤ current·0.5` and the event branch is unreachable. -/
theorem extinction_not_logged_on_crash :
    (testEnv.update (List.replicate 50 testB) zrng zrng).statistics.populationHistory
        = [50] ∧
      ((testEnv.update (List.replicate 50 testB) zrng zrng).update
          (List.replicate 20 testB) zrng zrng).statistics.populationHistory = [50, 20] ∧
      ((testEnv.update (List.replicate 50 testB) zrng zrng).update
          (List.replicate 20 testB) zrng zrng).statistics.extinctionEvents = [] := by
  have h1 : (testEnv.update (List.replicate 50 testB) zrng zrng).statistics.populationHistory
      = [50] := by
    rw [update_populationHistory]
    rw [show testEnv.statistics.populationHistory = [] from rfl]
    rw [capPush_eq_append _ _ (by norm_num)]
    simp
  have h2 : ((testEnv.update (List.replicate 50 testB) zrng zrng).update
      (List.replicate 20 testB) zrng zrng).statistics.populationHistory = [50, 20] := by
    rw [update_populationHistory, h1, capPush_eq_append _ _ (by norm_num)]
    simp
  refine ⟨h1, h2, ?_⟩
  rw [update_extinctionEvents, update_extinctionEvents]
  rfl

/-- **C3**: `reset` does not preserve the environment extent: starting
from a 1000×700 environment, the reset environment is 800×600, because
`getStatistics().currentParameters` carries no `width`/`height` and the
`Environment` constructor falls back to its defaults — contradicting
the source's own comment `Preserve current width and height when
resetting environment`.  (The other two parts of the claim do hold:
the new environment starts with empty statistics and the population is
reinitialized from the current seed parameters.) -/
theorem reset_loses_extent :
    testSimWide.environment.width = 1000 ∧ testSimWide.environment.height = 700 ∧
      (testSimWide.reset zrng zrng []).environment.width = 800 ∧
      (testSimWide.reset zrng zrng []).environment.height = 600 ∧
      (testSimWide.reset zrng zrng []).environment.statistics = ({} : Statistics) ∧
      (testSimWide.reset zrng zrng []).bacteria.length = testSimWide.initialPopulation := by
  exact ⟨rfl, rfl, rfl, rfl, rfl, rfl⟩

/-- Indexing a replicated list inside the bounds yields the repeated
element. -/
theorem listGetInt_replicate {α : Type} (n : ℕ) (v : α) (i : ℤ)
    (h0 : 0 ≤ i) (hlt : i.toNat < n) :
    listGetInt (List.replicate n v) i = some v := by
  unfold listGetInt
  rw [if_pos h0, List.get?_eq_getElem?]
  rw [List.getElem?_eq_getElem (by simpa using hlt)]
  simp

/-- Sampling the constant field at non-negative coordinates yields the
constant. -/
theorem flatField_sampleAt (v x y : ℚ) (hx : 0 ≤ x) (hy : 0 ≤ y) :
    (flatField v).sampleAt x y = some v := by
  unfold FieldDistribution.sampleAt
  dsimp only
  have hx0 : 0 ≤ min ⌊x / (flatField v).cellWidth⌋ (((flatField v).gridSize : ℤ) - 1) := by
    refine le_min (Int.floor_nonneg.mpr (div_nonneg hx (by norm_num [flatField]))) ?_
    norm_num [flatField]
  have hx19 : min ⌊x / (flatField v).cellWidth⌋ (((flatField v).gridSize : ℤ) - 1) ≤ 19 :=
    le_trans (min_le_right _ _) (by norm_num [flatField])
  have hy0 : 0 ≤ min ⌊y / (flatField v).cellHeight⌋ (((flatField v).gridSize : ℤ) - 1) := by
    refine le_min (Int.floor_nonneg.mpr (div_nonneg hy (by norm_num [flatField]))) ?_
    norm_num [flatField]
  have hy19 : min ⌊y / (flatField v).cellHeight⌋ (((flatField v).gridSize : ℤ) - 1) ≤ 19 :=
    le_trans (min_le_right _ _) (by norm_num [flatField])
  rw [show (flatField v).grid = List.replicate 20 (List.replicate 20 v) from rfl]
  rw [listGetInt_replicate _ _ _ hx0 (by omega)]
  rw [Option.some_bind]
  rw [listGetInt_replicate _ _ _ hy0 (by omega)]

/-- A bacterium given directly as a literal record (the constructor's
default trait values, at the origin, full energy). -/
def tbLit : Bacterium :=
  { x := 0, y := 0, size := 5, speed := 1, metabolism := 1, resistance := 1,
    lifespan := 100, mutationRate := 1/10, age := 0, energy := 100, alive := true,
    reproductionCooldown := 0, vx := 0, vy := 0 }

/-- **C4 (amended)**: the reproduction gate of the per-agent pass is
constant for the whole pass: `stepAgents` behaves exactly like the loop
with the fixed boolean gate `oldLen < carryingCapacity`, where `oldLen`
is the pre-step collection length.  Agents earlier in collection order
therefore have no reproduction advantage — either every surviving
agent may attempt reproduction this pass or none may, and the retained
population may exceed `carryingCapacity` within a single step. -/
theorem stepAgents_gate_constant (env : Environment) (oldLen : ℕ)
    (bs : List Bacterium) (rnds : List AgentRand) (acc : List Bacterium) :
    stepAgents env oldLen bs rnds acc =
      stepAgentsGated env (decide ((oldLen : ℚ) < env.carryingCapacity)) bs rnds acc := by
  induction bs generalizing rnds acc with
  | nil => rfl
  | cons b rest ih =>
    rw [stepAgents, stepAgentsGated]
    cases hN : env.getNutrientAt b.x b.y with
    | none => rfl
    | some nut =>
      cases hT : env.getToxicityAt b.x b.y with
      | none => rfl
      | some tox =>
        dsimp only
        split
        · by_cases hgate : (oldLen : ℚ) < env.carryingCapacity
          · rw [if_pos hgate, if_pos (decide_eq_true hgate)]
            split <;> exact ih _ _
          · rw [if_neg hgate,
              if_neg (show ¬(decide ((oldLen : ℚ) < env.carryingCapacity) = true) by
                simp [hgate])]
            exact ih _ _
        · exact ih _ _

/-- **C4 (counterexample)**: with carrying capacity 3 and two agents,
the code lets both reproduce (pre-step count 2 < 3 for every agent),
producing 4 agents, whereas the claimed cumulative gate would stop the
second agent (3 retained/spawned already) and produce 3: the gate is
not cumulative. -/
theorem capacity_gate_not_cumulative :
    (stepAgents envCap3 2 [tbLit, tbLit] [] []).map List.length = some 4 ∧
      (stepAgentsCumulative envCap3 [tbLit, tbLit] [] []).map List.length = some 3 ∧
      envCap3.carryingCapacity = 3 := by
  refine ⟨?_, ?_, rfl⟩ <;>
    norm_num [stepAgents, stepAgentsCumulative, Environment.getNutrientAt,
      Environment.getToxicityAt, flatField_sampleAt, envCap3, flatEnv, tbLit,
      Bacterium.update, Bacterium.move, Bacterium.reproduce, Bacterium.mutateProperty,
      Bacterium.create, orDefault, Bacterium.calculateTemperatureFactor,
      Bacterium.calculatePHFactor, Bacterium.calculateToxicityFactor,
      Bacterium.absorbNutrients]

/-- **C5 (counterexample)**: changing the extent alone (width 800 →
1600) leaves both fields untouched — the nutrient distribution is
unchanged and its cached `cellWidth` still reflects the old extent (40,
not the 80 a regeneration from current parameters would produce) — so
fields do not regenerate on extent change as the claim states. -/
theorem setParameters_extent_change_no_regen :
    (flatEnv.setParameters { width := some 1600 } zrng zrng).width = 1600 ∧
      flatEnv.width = 800 ∧
      (flatEnv.setParameters { width := some 1600 } zrng zrng).nutrientDistribution =
        flatEnv.nutrientDistribution ∧
      (flatEnv.setParameters { width := some 1600 } zrng zrng).toxicityDistribution =
        flatEnv.toxicityDistribution ∧
      (flatEnv.setParameters { width := some 1600 } zrng zrng).nutrientDistribution.cellWidth
        = 40 ∧
      (generateNutrientDistribution
          (flatEnv.setParameters { width := some 1600 } zrng zrng).nutrients
          (flatEnv.setParameters { width := some 1600 } zrng zrng).width
          (flatEnv.setParameters { width := some 1600 } zrng zrng).height
          zrng).cellWidth = 80 := by
  refine ⟨rfl, rfl, rfl, rfl, rfl, ?_⟩
  show (1600 : ℚ) / 20 = 80
  norm_num

/-- **C5 (amended)**: `setParameters` merges every present key and
regenerates the nutrient field iff the partial update contains a
`nutrients` key (even when the value is unchanged), using the pre-update
extent; analogously the toxicity field regenerates iff a `toxicity` key
is present.  Extent-only, temperature, pH, antibiotics or
carryingCapacity updates never regenerate either field. -/
theorem setParameters_spec (e : Environment) (p : EnvParams)
    (rngN rngT : ℕ → ℕ → CellRand) :
    (e.setParameters p rngN rngT).nutrientDistribution =
        (match p.nutrients with
         | some n => generateNutrientDistribution n e.width e.height rngN
         | none => e.nutrientDistribution) ∧
      (e.setParameters p rngN rngT).toxicityDistribution =
        (match p.toxicity with
         | some t => generateToxicityDistribution t e.width e.height rngT
         | none => e.toxicityDistribution) ∧
      (e.setParameters p rngN rngT).temperature = p.temperature.getD e.temperature ∧
      (e.setParameters p rngN rngT).pH = p.pH.getD e.pH ∧
      (e.setParameters p rngN rngT).nutrients = p.nutrients.getD e.nutrients ∧
      (e.setParameters p rngN rngT).toxicity = p.toxicity.getD e.toxicity ∧
      (e.setParameters p rngN rngT).antibiotics = p.antibiotics.getD e.antibiotics ∧
      (e.setParameters p rngN rngT).carryingCapacity
        = p.carryingCapacity.getD e.carryingCapacity ∧
      (e.setParameters p rngN rngT).width = p.width.getD e.width ∧
      (e.setParameters p rngN rngT).height = p.height.getD e.height := by
  obtain ⟨t, ph, n, tox, a, c, w, h⟩ := p
  unfold Environment.setParameters
  cases t <;> cases ph <;> cases n <;> cases tox <;> cases a <;> cases c <;>
    cases w <;> cases h <;>
      exact ⟨rfl, rfl, rfl, rfl, rfl, rfl, rfl, rfl, rfl, rfl⟩

/-- The consumption formula exactly as the claim words it:
`size·metabolism·Tfactor·PHfactor·Toxfactor`. -/
def claimConsumption (b : Bacterium) (env : LocalEnv) : ℚ :=
  b.size * b.metabolism * (1 + |env.temperature - 50| / 50 * (1 - b.resistance * (1/2)))
    * (1 + |env.pH - 7| / 7 * (1 - b.resistance * (1/2)))
    * (1 + env.toxicity * (1 - b.resistance * (4/5)))

/-- The absorbed-nutrient formula exactly as the claim words it:
`localNutrient·size·0.5·(0.5+metabolism·0.5)`. -/
def claimAbsorbed (b : Bacterium) (env : LocalEnv) : ℚ :=
  env.nutrients * (b.size * (1/2)) * (1/2 + b.metabolism * (1/2))

/-- **C6**: for an alive agent, one `update` leaves
`energy = energy_before − consumption + absorbed` with the claim's
factor formulas; the agent ends dead iff that resulting energy is ≤ 0
or the incremented age reaches the lifespan; the returned boolean
equals the final alive flag; and a surviving agent is exactly the
energy-updated, aged, cooldown-decremented agent passed through
`move`. -/
theorem bacterium_step_energy_death (b : Bacterium) (env : LocalEnv) (rDir r1 r2 : ℚ)
    (hAlive : b.alive = true) :
    (b.update env rDir r1 r2).1.energy =
        b.energy - claimConsumption b env + claimAbsorbed b env ∧
      ((b.update env rDir r1 r2).1.alive = false ↔
        b.energy - claimConsumption b env + claimAbsorbed b env ≤ 0 ∨
          b.lifespan ≤ ((b.age + 1 : ℕ) : ℚ)) ∧
      (b.update env rDir r1 r2).2 = (b.update env rDir r1 r2).1.alive ∧
      ((b.update env rDir r1 r2).2 = true →
        (b.update env rDir r1 r2).1 = Bacterium.move
          { b with age := b.age + 1
                   reproductionCooldown := b.reproductionCooldown - 1
                   energy := b.energy - claimConsumption b env + claimAbsorbed b env }
          env.width env.height rDir r1 r2) := by
  unfold Bacterium.update
  rw [hAlive]
  rw [if_neg (by decide : ¬(true = false))]
  dsimp only
  by_cases hc : b.reproductionCooldown > 0
  · rw [if_pos hc]
    dsimp only
    split
    · rename_i hd
      exact ⟨rfl, iff_of_true rfl hd, rfl, fun hfalse => Bool.noConfusion hfalse⟩
    · rename_i hd
      exact ⟨rfl, iff_of_false (by simp [Bacterium.move]) hd, rfl, fun _ => rfl⟩
  · rw [if_neg hc]
    dsimp only
    split
    · rename_i hd
      exact ⟨rfl, iff_of_true rfl hd, rfl, fun hfalse => Bool.noConfusion hfalse⟩
    · rename_i hd
      refine ⟨rfl, iff_of_false (by simp [Bacterium.move]) hd, rfl, fun _ => ?_⟩
      have h0 : b.reproductionCooldown = 0 := by omega
      rw [h0]
      rfl

/-- Witness for `bacterium_step_energy_death` at the constructor's
default bacterium in the neutral local environment. -/
theorem bacterium_step_energy_death_witness :
    (testB.update testLocalEnv 0 0 0).1.energy =
        testB.energy - claimConsumption testB testLocalEnv
          + claimAbsorbed testB testLocalEnv ∧
      ((testB.update testLocalEnv 0 0 0).1.alive = false ↔
        testB.energy - claimConsumption testB testLocalEnv
            + claimAbsorbed testB testLocalEnv ≤ 0 ∨
          testB.lifespan ≤ ((testB.age + 1 : ℕ) : ℚ)) ∧
      (testB.update testLocalEnv 0 0 0).2 = (testB.update testLocalEnv 0 0 0).1.alive ∧
      ((testB.update testLocalEnv 0 0 0).2 = true →
        (testB.update testLocalEnv 0 0 0).1 = Bacterium.move
          { testB with age := testB.age + 1
                       reproductionCooldown := testB.reproductionCooldown - 1
                       energy := testB.energy - claimConsumption testB testLocalEnv
                         + claimAbsorbed testB testLocalEnv }
          testLocalEnv.width testLocalEnv.height 0 0 0) :=
  bacterium_step_energy_death testB testLocalEnv 0 0 0 rfl

/-- **C7 (amended)**: `reproduce` fails — returning the completely
unchanged parent and no child — when the parent is dead, cooling down,
or below 50 energy; on success the parent's energy is multiplied by 0.7
and its cooldown set to 20, and exactly one child is created by the
constructor from every trait passed through `mutateProperty`, at the
parent's position plus a per-axis jitter `r·10 − 5` that ranges over
`[-5, 5)` for `r ∈ [0, 1)` (the claim's open interval `(-5,5)` misses
the attainable endpoint `-5`). -/
theorem reproduce_spec (b : Bacterium) (rnd : ReproRand) :
    (b.alive = false ∨ b.reproductionCooldown > 0 ∨ b.energy < 50 →
        b.reproduce rnd = (b, none)) ∧
      (b.alive = true → b.reproductionCooldown = 0 → 50 ≤ b.energy →
        (b.reproduce rnd).1 =
            { b with energy := b.energy * (7/10), reproductionCooldown := 20 } ∧
          (b.reproduce rnd).2 = some (Bacterium.create
            { x := some (b.x + (rnd.rx * 10 - 5))
              y := some (b.y + (rnd.ry * 10 - 5))
              size := some (b.mutateProperty rnd.rSize rnd.mSize b.size)
              speed := some (b.mutateProperty rnd.rSpeed rnd.mSpeed b.speed)
              metabolism := some (b.mutateProperty rnd.rMet rnd.mMet b.metabolism)
              resistance := some (b.mutateProperty rnd.rRes rnd.mRes b.resistance)
              lifespan := some (b.mutateProperty rnd.rLife rnd.mLife b.lifespan)
              mutationRate := some (b.mutateProperty rnd.rMut rnd.mMut b.mutationRate) }
            rnd.rvx rnd.rvy) ∧
          ((b.reproduce rnd).2.map Bacterium.x) = some (b.x + (rnd.rx * 10 - 5)) ∧
          ((b.reproduce rnd).2.map Bacterium.y) = some (b.y + (rnd.ry * 10 - 5)) ∧
          (0 ≤ rnd.rx → rnd.rx < 1 →
            -5 ≤ rnd.rx * 10 - 5 ∧ rnd.rx * 10 - 5 < 5)) := by
  constructor
  · intro h
    unfold Bacterium.reproduce
    rw [if_pos h]
  · intro hAlive hCd hEn
    have hcond : ¬(b.alive = false ∨ b.reproductionCooldown > 0 ∨ b.energy < 50) := by
      push_neg
      exact ⟨by simp [hAlive], by omega, not_lt.mp (by simpa using hEn)⟩
    unfold Bacterium.reproduce
    rw [if_neg hcond]
    refine ⟨rfl, rfl, ?_, ?_, fun h0 h1 => ⟨by linarith, by linarith⟩⟩
    · show some (orDefault (some (b.x + (rnd.rx * 10 - 5))) 0) = _
      rw [orDefault_some_zero_default]
    · show some (orDefault (some (b.y + (rnd.ry * 10 - 5))) 0) = _
      rw [orDefault_some_zero_default]

/-- Witness for `reproduce_spec`: the failure case at a dead parent and
the success case at the default bacterium with jitter draw 1/2. -/
theorem reproduce_spec_witness :
    ({ testB with alive := false }.reproduce { rx := 1/2 }
        = ({ testB with alive := false }, none)) ∧
      (testB.reproduce { rx := 1/2 }).1 =
        { testB with energy := testB.energy * (7/10), reproductionCooldown := 20 } ∧
      ((testB.reproduce { rx := 1/2 }).2.map Bacterium.x)
        = some (testB.x + ((1/2 : ℚ) * 10 - 5)) := by
  refine ⟨(reproduce_spec { testB with alive := false } { rx := 1/2 }).1 (Or.inl rfl),
    ?_, ?_⟩
  · exact ((reproduce_spec testB { rx := 1/2 }).2 rfl rfl
      (by show (50 : ℚ) ≤ 100; norm_num)).1
  · exact ((reproduce_spec testB { rx := 1/2 }).2 rfl rfl
      (by show (50 : ℚ) ≤ 100; norm_num)).2.2.1

/-- **C7 (counterexample)**: `Math.random()` can return 0, in which
case the child's per-axis offset is exactly `0·10 − 5 = -5`, which is
not in the open interval `(-5, 5)` the claim asserts for the jitter. -/
theorem reproduce_jitter_hits_minus_five :
    ((tbLit.reproduce {}).2.map Bacterium.x) = some (tbLit.x - 5) ∧
      ¬(-5 < tbLit.x - 5 - tbLit.x ∧ tbLit.x - 5 - tbLit.x < 5) := by
  constructor
  · norm_num [Bacterium.reproduce, tbLit, Bacterium.create, Bacterium.mutateProperty,
      orDefault]
  · norm_num [tbLit]

/-- All seven rolling histories are within the 1000-entry cap. -/
def Statistics.Capped (st : Statistics) : Prop :=
  st.populationHistory.length ≤ 1000 ∧ st.sizeHist.length ≤ 1000 ∧
    st.speedHist.length ≤ 1000 ∧ st.metabolismHist.length ≤ 1000 ∧
    st.resistanceHist.length ≤ 1000 ∧ st.lifespanHist.length ≤ 1000 ∧
    st.mutationRateHist.length ≤ 1000

instance (st : Statistics) : Decidable st.Capped := by
  unfold Statistics.Capped
  infer_instance

/-- The extinction branch of `Environment.update` leaves every rolling
history exactly as `updateStatistics` wrote it. -/
theorem update_hists_eq_updateStatistics (e : Environment) (bacteria : List Bacterium)
    (rngN rngT : ℕ → ℕ → CellRand) :
    (e.update bacteria rngN rngT).statistics.populationHistory
        = (updateStatistics e.statistics bacteria).populationHistory ∧
      (e.update bacteria rngN rngT).statistics.sizeHist
        = (updateStatistics e.statistics bacteria).sizeHist ∧
      (e.update bacteria rngN rngT).statistics.speedHist
        = (updateStatistics e.statistics bacteria).speedHist ∧
      (e.update bacteria rngN rngT).statistics.metabolismHist
        = (updateStatistics e.statistics bacteria).metabolismHist ∧
      (e.update bacteria rngN rngT).statistics.resistanceHist
        = (updateStatistics e.statistics bacteria).resistanceHist ∧
      (e.update bacteria rngN rngT).statistics.lifespanHist
        = (updateStatistics e.statistics bacteria).lifespanHist ∧
      (e.update bacteria rngN rngT).statistics.mutationRateHist
        = (updateStatistics e.statistics bacteria).mutationRateHist := by
  unfold Environment.update
  dsimp only
  split <;> exact ⟨rfl, rfl, rfl, rfl, rfl, rfl, rfl⟩

/-- **C8**: every `Environment.update` appends at most one entry per
history — exactly one capped push of the population count, and, when
the population is non-empty, exactly one capped push of each trait
mean (none when it is empty) — so no history ever exceeds 1000
entries, and a push at the cap evicts the oldest (front) entry
first. -/
theorem histories_capped_fifo (e : Environment) (bacteria : List Bacterium)
    (rngN rngT : ℕ → ℕ → CellRand) (hcap : e.statistics.Capped) :
    (e.update bacteria rngN rngT).statistics.Capped ∧
      (e.update bacteria rngN rngT).statistics.populationHistory
        = capPush e.statistics.populationHistory bacteria.length ∧
      (bacteria = [] →
        (e.update bacteria rngN rngT).statistics.sizeHist = e.statistics.sizeHist ∧
        (e.update bacteria rngN rngT).statistics.mutationRateHist
          = e.statistics.mutationRateHist) ∧
      (bacteria ≠ [] →
        (e.update bacteria rngN rngT).statistics.sizeHist
            = capPush e.statistics.sizeHist (avgBy Bacterium.size bacteria) ∧
          (e.update bacteria rngN rngT).statistics.speedHist
            = capPush e.statistics.speedHist (avgBy Bacterium.speed bacteria) ∧
          (e.update bacteria rngN rngT).statistics.metabolismHist
            = capPush e.statistics.metabolismHist (avgBy Bacterium.metabolism bacteria) ∧
          (e.update bacteria rngN rngT).statistics.resistanceHist
            = capPush e.statistics.resistanceHist (avgBy Bacterium.resistance bacteria) ∧
          (e.update bacteria rngN rngT).statistics.lifespanHist
            = capPush e.statistics.lifespanHist (avgBy Bacterium.lifespan bacteria) ∧
          (e.update bacteria rngN rngT).statistics.mutationRateHist
            = capPush e.statistics.mutationRateHist (avgBy Bacterium.mutationRate bacteria)) ∧
      (e.statistics.populationHistory.length = 1000 →
        (e.update bacteria rngN rngT).statistics.populationHistory
          = e.statistics.populationHistory.tail ++ [bacteria.length]) := by
  obtain ⟨hp, hs1, hs2, hs3, hs4, hs5, hs6⟩ := hcap
  obtain ⟨e1, e2, e3, e4, e5, e6, e7⟩ := update_hists_eq_updateStatistics e bacteria rngN rngT
  have hstat : ∀ (hne : bacteria ≠ []) , bacteria.length > 0 := by
    intro hne
    cases bacteria with
    | nil => exact absurd rfl hne
    | cons a t => simp
  by_cases hb : bacteria = []
  · have hlen : ¬(bacteria.length > 0) := by simp [hb]
    have hus : updateStatistics e.statistics bacteria =
        { e.statistics with
          populationHistory := capPush e.statistics.populationHistory bacteria.length } := by
      unfold updateStatistics
      rw [if_neg hlen]
    refine ⟨?_, ?_, fun _ => ?_, fun hne => absurd hb hne, fun hfull => ?_⟩
    · rw [Statistics.Capped, e1, e2, e3, e4, e5, e6, e7, hus]
      exact ⟨capPush_length_le _ _ hp, hs1, hs2, hs3, hs4, hs5, hs6⟩
    · rw [e1, hus]
    · rw [e2, hus]
      exact ⟨rfl, by rw [e7, hus]⟩
    · rw [e1, hus]
      exact capPush_eq_tail_append _ _ hfull
  · have hlen : bacteria.length > 0 := hstat hb
    have hus : updateStatistics e.statistics bacteria =
        { e.statistics with
          populationHistory := capPush e.statistics.populationHistory bacteria.length
          sizeHist := capPush e.statistics.sizeHist (avgBy Bacterium.size bacteria)
          speedHist := capPush e.statistics.speedHist (avgBy Bacterium.speed bacteria)
          metabolismHist :=
            capPush e.statistics.metabolismHist (avgBy Bacterium.metabolism bacteria)
          resistanceHist :=
            capPush e.statistics.resistanceHist (avgBy Bacterium.resistance bacteria)
          lifespanHist := capPush e.statistics.lifespanHist (avgBy Bacterium.lifespan bacteria)
          mutationRateHist :=
            capPush e.statistics.mutationRateHist (avgBy Bacterium.mutationRate bacteria) } := by
      unfold updateStatistics
      rw [if_pos hlen]
    refine ⟨?_, ?_, fun hnil => absurd hnil hb, fun _ => ?_, fun hfull => ?_⟩
    · rw [Statistics.Capped, e1, e2, e3, e4, e5, e6, e7, hus]
      exact ⟨capPush_length_le _ _ hp, capPush_length_le _ _ hs1, capPush_length_le _ _ hs2,
        capPush_length_le _ _ hs3, capPush_length_le _ _ hs4, capPush_length_le _ _ hs5,
        capPush_length_le _ _ hs6⟩
    · rw [e1, hus]
    · rw [e2, e3, e4, e5, e6, e7, hus]
      exact ⟨rfl, rfl, rfl, rfl, rfl, rfl⟩
    · rw [e1, hus]
      exact capPush_eq_tail_append _ _ hfull

/-- Witness for `histories_capped_fifo` at the fresh environment (empty
histories) and a singleton population. -/
theorem histories_capped_fifo_witness :
    (flatEnv.update [tbLit] zrng zrng).statistics.Capped ∧
      (flatEnv.update [tbLit] zrng zrng).statistics.populationHistory
        = capPush flatEnv.statistics.populationHistory [tbLit].length ∧
      ([tbLit] = ([] : List Bacterium) →
        (flatEnv.update [tbLit] zrng zrng).statistics.sizeHist = flatEnv.statistics.sizeHist ∧
        (flatEnv.update [tbLit] zrng zrng).statistics.mutationRateHist
          = flatEnv.statistics.mutationRateHist) ∧
      ([tbLit] ≠ ([] : List Bacterium) →
        (flatEnv.update [tbLit] zrng zrng).statistics.sizeHist
            = capPush flatEnv.statistics.sizeHist (avgBy Bacterium.size [tbLit]) ∧
          (flatEnv.update [tbLit] zrng zrng).statistics.speedHist
            = capPush flatEnv.statistics.speedHist (avgBy Bacterium.speed [tbLit]) ∧
          (flatEnv.update [tbLit] zrng zrng).statistics.metabolismHist
            = capPush flatEnv.statistics.metabolismHist (avgBy Bacterium.metabolism [tbLit]) ∧
          (flatEnv.update [tbLit] zrng zrng).statistics.resistanceHist
            = capPush flatEnv.statistics.resistanceHist (avgBy Bacterium.resistance [tbLit]) ∧
          (flatEnv.update [tbLit] zrng zrng).statistics.lifespanHist
            = capPush flatEnv.statistics.lifespanHist (avgBy Bacterium.lifespan [tbLit]) ∧
          (flatEnv.update [tbLit] zrng zrng).statistics.mutationRateHist
            = capPush flatEnv.statistics.mutationRateHist
                (avgBy Bacterium.mutationRate [tbLit])) ∧
      (flatEnv.statistics.populationHistory.length = 1000 →
        (flatEnv.update [tbLit] zrng zrng).statistics.populationHistory
          = flatEnv.statistics.populationHistory.tail ++ [[tbLit].length]) :=
  histories_capped_fifo flatEnv [tbLit] zrng zrng (by decide)

/-- **C9**: with mutation rate 0, `mutateProperty` is the identity on
every value, for every non-negative random draw (the range of
`Math.random()`). -/
theorem mutateProperty_id_of_zero_rate (b : Bacterium) (hb : b.mutationRate = 0)
    (r rm v : ℚ) (hr : 0 ≤ r) :
    b.mutateProperty r rm v = v := by
  unfold Bacterium.mutateProperty
  rw [hb, if_neg (not_lt.mpr hr)]

/-- Witness for `mutateProperty_id_of_zero_rate` at a concrete
zero-mutation-rate bacterium. -/
theorem mutateProperty_id_of_zero_rate_witness :
    testB0.mutateProperty 0 1 7 = 7 :=
  mutateProperty_id_of_zero_rate testB0 rfl 0 1 7 le_rfl

/-- **C10**: a trait option of `0` handed to the `Bacterium`
constructor is replaced by the built-in default (`size: 0` yields size
5), and an explicit seed value `0` in `initializePopulation` is
replaced by the randomized baseline (for size, `5 + (r·3 − 1.5)`),
which is non-zero for every draw `r ∈ [0, 1)` — so a seed of `0` never
survives into the created agent. -/
theorem zero_trait_option_replaced (opts : BacteriumOptions) (rvx rvy : ℚ)
    (e : Environment) (p : SeedParams) (r : InitRand)
    (hopt : opts.size = some 0) (hseed : p.size = some 0)
    (h0 : 0 ≤ r.rSize) (h1 : r.rSize < 1) :
    (Bacterium.create opts rvx rvy).size = 5 ∧
      (makeInitialBacterium e p r).size = 5 + (r.rSize * 3 - 3/2) ∧
      (makeInitialBacterium e p r).size ≠ 0 := by
  have hbase : (5 : ℚ) + (r.rSize * 3 - 3/2) ≠ 0 := by nlinarith
  refine ⟨?_, ?_, ?_⟩
  · show orDefault opts.size 5 = 5
    rw [hopt]
    simp [orDefault]
  · show orDefault (some (orDefault p.size (5 + (r.rSize * 3 - 3/2)))) 5 = _
    rw [hseed]
    rw [show orDefault (some 0) (5 + (r.rSize * 3 - 3/2)) = 5 + (r.rSize * 3 - 3/2) by
      simp [orDefault]]
    exact orDefault_some_of_ne _ _ hbase
  · show orDefault (some (orDefault p.size (5 + (r.rSize * 3 - 3/2)))) 5 ≠ 0
    rw [hseed]
    rw [show orDefault (some 0) (5 + (r.rSize * 3 - 3/2)) = 5 + (r.rSize * 3 - 3/2) by
      simp [orDefault]]
    rw [orDefault_some_of_ne _ _ hbase]
    exact hbase

/-- Witness for `zero_trait_option_replaced` at concrete zero seeds and
the draw 0. -/
theorem zero_trait_option_replaced_witness :
    (Bacterium.create { size := some 0 } 0 0).size = 5 ∧
      (makeInitialBacterium flatEnv { size := some 0 } {}).size
        = 5 + ((0 : ℚ) * 3 - 3/2) ∧
      (makeInitialBacterium flatEnv { size := some 0 } {}).size ≠ 0 :=
  zero_trait_option_replaced { size := some 0 } 0 0 flatEnv { size := some 0 } {}
    rfl rfl le_rfl (by norm_num)

end BactSim
